import Mathlib

/-!
Shallow embedding of the dataset reduction, summarization and forecasting
engine of `src/dataProcessor.js`, together with theorems settling the frozen
claims about it.

Conventions of the embedding:
* a record (a parsed CSV row) is an ordered list of (column name, string
  value) fields, modelling a flat string-valued JS object;
* JS numbers are modelled as exact rationals (the claims and the examples in
  the spec only involve arithmetic that is exact in float64 as well);
* reading a missing property yields `undefined`, modelled as `none`;
* fallible dynamic behaviour (claim C8) is modelled separately with an
  untyped value universe and `Except`.
-/

namespace DataProcessor

/-- A dataset record: ordered (column name, value) fields, all values strings.
Models a flat JS object as produced by the CSV / Sheets parsing layer. -/
abbrev Record := List (String × String)

/-- JS property read `row[key]`: value of the first field with that name,
`none` models `undefined`. -/
def jsGet (row : Record) (key : String) : Option String :=
  (row.find? (fun kv => kv.1 == key)).map (fun kv => kv.2)

/-- JS string coercion of a possibly-undefined value: `RegExp.test` and
`parseFloat` coerce their argument, and `undefined` coerces to the literal
string "undefined". -/
def jsCoerceString : Option String → String
  | some s => s
  | none => "undefined"

/-- Digits to the natural number they denote (most significant first). -/
def digitsToNat (ds : List Char) : Nat :=
  ds.foldl (fun acc c => 10 * acc + (c.toNat - 48)) 0

/-- Model of the JS builtin `parseFloat`: skip leading whitespace, optional
sign, then the longest `digits[.digits]` prefix; `none` models `NaN` (no digit
found). Exponent suffixes are not modelled (no value in the repository or the
claims uses them). -/
def jsParseFloat (s : String) : Option ℚ :=
  let cs := s.toList.dropWhile (fun c => c.isWhitespace)
  let signed : ℚ × List Char :=
    match cs with
    | '-' :: rest => (-1, rest)
    | '+' :: rest => (1, rest)
    | _ => (1, cs)
  let intPart := signed.2.takeWhile (fun c => c.isDigit)
  let rest := signed.2.dropWhile (fun c => c.isDigit)
  let fracPart : List Char :=
    match rest with
    | '.' :: tail => tail.takeWhile (fun c => c.isDigit)
    | _ => []
  if intPart.isEmpty && fracPart.isEmpty then none
  else some (signed.1 *
    ((digitsToNat intPart : ℚ) + (digitsToNat fracPart : ℚ) / (10 : ℚ) ^ fracPart.length))

/-- All characters are decimal digits (regex `\d`). -/
def allDigits (cs : List Char) : Bool := cs.all (fun c => c.isDigit)

/-- Regex `\w`: ASCII letter, digit or underscore. -/
def isWordChar (c : Char) : Bool := c.isAlphanum || c == '_'

/-- Date pattern 1 (line 101): `^\d{4}-\d{2}-\d{2}$`. -/
def matchISODate : List Char → Bool
  | [a, b, c, d, '-', e, f, '-', g, h] => allDigits [a, b, c, d, e, f, g, h]
  | _ => false

/-- Date pattern 2 (line 102): `^\d{2}\/\d{2}\/\d{4}$`. -/
def matchSlashDate : List Char → Bool
  | [a, b, '/', c, d, '/', e, f, g, h] => allDigits [a, b, c, d, e, f, g, h]
  | _ => false

/-- Date pattern 3 (line 103): `^\d{1,2}\/\d{1,2}\/\d{2,4}$`. The digit runs
are delimited by the slashes and the anchors, so the regex match is equivalent
to this deterministic decomposition. -/
def matchShortSlashDate (cs : List Char) : Bool :=
  let p1 := cs.takeWhile (fun c => c.isDigit)
  match cs.dropWhile (fun c => c.isDigit) with
  | '/' :: r2 =>
    let p2 := r2.takeWhile (fun c => c.isDigit)
    (match r2.dropWhile (fun c => c.isDigit) with
     | '/' :: r4 =>
       let p3 := r4.takeWhile (fun c => c.isDigit)
       let r5 := r4.dropWhile (fun c => c.isDigit)
       decide (1 ≤ p1.length) && decide (p1.length ≤ 2) &&
       decide (1 ≤ p2.length) && decide (p2.length ≤ 2) &&
       decide (2 ≤ p3.length) && decide (p3.length ≤ 4) && r5.isEmpty
     | _ => false)
  | _ => false

/-- Date pattern 4 (line 104): `^\w+ \d{1,2},? \d{4}$` (e.g. "May 5, 2024").
The word run must end at the mandatory space (a space is not a word
character) and the digit runs are delimited by the comma/space/anchor, so the
regex match is equivalent to this deterministic decomposition. -/
def matchMonthNameDate (cs : List Char) : Bool :=
  let w := cs.takeWhile isWordChar
  if w.isEmpty then false
  else
    match cs.dropWhile isWordChar with
    | ' ' :: r2 =>
      let d := r2.takeWhile (fun c => c.isDigit)
      let r3 := r2.dropWhile (fun c => c.isDigit)
      if d.isEmpty || decide (2 < d.length) then false
      else
        (match (match r3 with | ',' :: tail => tail | _ => r3) with
         | ' ' :: r5 => allDigits r5 && decide (r5.length = 4)
         | _ => false)
    | _ => false

/-- One `pattern.test(value)` sweep over the four date regexes
(lines 100-109). -/
def dateTest (s : String) : Bool :=
  matchISODate s.toList || matchSlashDate s.toList ||
  matchShortSlashDate s.toList || matchMonthNameDate s.toList

/-- `isDateColumn` (lines 99-110): some sampled value matches some date
pattern. Sampled values may be `undefined` (missing field), which
`pattern.test` coerces to the string "undefined". -/
def isDateColumn (values : List (Option String)) : Bool :=
  values.any (fun v => dateTest (jsCoerceString v))

/-- `isNumericColumn` (lines 112-116):
`!isNaN(parseFloat(value)) && value !== '' && value !== null`. In this
embedding a sampled value is a string or `undefined`, so the `null`
disequality always holds. -/
def isNumericColumn (values : List (Option String)) : Bool :=
  values.any (fun v => (jsParseFloat (jsCoerceString v)).isSome && v != some "")

/-- `data.slice(0, 10).map(row => row[key])` (lines 65, 134). -/
def sampleValues (data : List Record) (key : String) : List (Option String) :=
  (data.take 10).map (fun row => jsGet row key)

/-- `Object.keys` of a record: field names in insertion order (JS object keys
are unique by construction). -/
def jsKeys (row : Record) : List String := row.map (fun kv => kv.1)

/-- Per-column aggregate statistics (summary lines 87-92). -/
structure NumStats where
  min : ℚ
  max : ℚ
  avg : ℚ
  count : Nat
deriving DecidableEq

/-- The summary object built by `generateDataSummary` (lines 53-59, 83). -/
structure Summary where
  totalRecords : Nat
  columns : List String
  dateColumns : List String
  numericColumns : List String
  categoricalColumns : List String
  numericStats : List (String × NumStats)
deriving DecidableEq

/-- Statistics of one numeric column (lines 84-94): parse every record's
value, drop NaN, and aggregate when at least one value remains. -/
def columnStats (data : List Record) (col : String) : Option NumStats :=
  match data.filterMap (fun row => jsParseFloat (jsCoerceString (jsGet row col))) with
  | [] => none
  | v :: vs =>
    some { min := vs.foldl min v
           max := vs.foldl max v
           avg := (v :: vs).foldl (fun a b => a + b) 0 / ((v :: vs).length : ℚ)
           count := (v :: vs).length }

/-- The classification forEach of lines 64-79: route each column name into
the date / numeric / categorical bucket, in order. -/
def bucketFold (data : List Record) :
    List String → List String × List String × List String →
    List String × List String × List String
  | [], b => b
  | key :: rest, (dc, nc, cc) =>
    if isDateColumn (sampleValues data key) then
      bucketFold data rest (dc ++ [key], nc, cc)
    else if isNumericColumn (sampleValues data key) then
      bucketFold data rest (dc, nc ++ [key], cc)
    else
      bucketFold data rest (dc, nc, cc ++ [key])

/-- `generateDataSummary` (lines 50-97). The early return of the empty object
`{}` for an empty dataset is modelled as `none`. A nonempty dataset's first
record is an object, hence truthy, so the classification always runs. -/
def generateDataSummary (data : List Record) : Option Summary :=
  if data.length = 0 then none
  else
    let keys := jsKeys (data.headD [])
    let b := bucketFold data keys ([], [], [])
    some { totalRecords := data.length
           columns := keys
           dateColumns := b.1
           numericColumns := b.2.1
           categoricalColumns := b.2.2
           numericStats :=
             b.2.1.filterMap (fun col => (columnStats data col).map (fun st => (col, st))) }

/-- `hasDateColumn` (lines 130-137). -/
def hasDateColumn (data : List Record) : Bool :=
  match data with
  | [] => false
  | firstRow :: _ =>
    (jsKeys firstRow).any (fun key => isDateColumn (sampleValues data key))

/-- Model of the host `new Date(string).getTime()` used at lines 165-167,
restricted to the calendar-date shapes that occur in this pipeline:
`YYYY-MM-DD` and `(M)M/(D)D/YYYY` with a plausible month and day; every other
string is an invalid date (`none` models `NaN`). The timestamp is the
order-preserving encoding `y * 10000 + m * 100 + d`; only comparisons of
timestamps are observable (the sort comparator at line 144), so any
order-preserving encoding of the calendar date is a faithful model of the
epoch-milliseconds value. -/
def jsDateParse (s : String) : Option Int :=
  let cs := s.toList
  let p1 := cs.takeWhile (fun c => c.isDigit)
  match cs.dropWhile (fun c => c.isDigit) with
  | '-' :: r2 =>
    let p2 := r2.takeWhile (fun c => c.isDigit)
    (match r2.dropWhile (fun c => c.isDigit) with
     | '-' :: r4 =>
       if allDigits r4 && decide (p1.length = 4) && decide (p2.length = 2) &&
          decide (r4.length = 2) && decide (1 ≤ digitsToNat p2) &&
          decide (digitsToNat p2 ≤ 12) && decide (1 ≤ digitsToNat r4) &&
          decide (digitsToNat r4 ≤ 31) then
         some ((digitsToNat p1 : Int) * 10000 + (digitsToNat p2 : Int) * 100 +
           (digitsToNat r4 : Int))
       else none
     | _ => none)
  | '/' :: r2 =>
    let p2 := r2.takeWhile (fun c => c.isDigit)
    (match r2.dropWhile (fun c => c.isDigit) with
     | '/' :: r4 =>
       if allDigits r4 && decide (1 ≤ p1.length) && decide (p1.length ≤ 2) &&
          decide (1 ≤ p2.length) && decide (p2.length ≤ 2) &&
          decide (r4.length = 4) && decide (1 ≤ digitsToNat p1) &&
          decide (digitsToNat p1 ≤ 12) && decide (1 ≤ digitsToNat p2) &&
          decide (digitsToNat p2 ≤ 31) then
         some ((digitsToNat r4 : Int) * 10000 + (digitsToNat p1 : Int) * 100 +
           (digitsToNat p2 : Int))
       else none
     | _ => none)
  | _ => none

/-- `getDateValue` (lines 160-172): scan the record's fields in order and
return the first value that parses as a valid date; otherwise 0. All field
values are strings in this embedding, so the `typeof` guard always passes. -/
def getDateValue : Record → Int
  | [] => 0
  | (_, v) :: rest =>
    match jsDateParse v with
    | some t => t
    | none => getDateValue rest

/-- The stride `Math.floor(dataLength / sampleSize)` computed at line 24
(stratified sampling) and line 148 (time-based sampling). -/
def samplingStep (dataLength sampleSize : Nat) : Nat := dataLength / sampleSize

/-- The sampling loop
`for (let i = 0; i < len; i += step) { if (acc.length < cap) acc.push(data[i]) }`
of lines 25-29 and 151-155, re-expressed as a single walk of the list with a
countdown counter: starting from countdown 0 it selects exactly the indices
0, step, 2*step, ... . The call sites only reach it with step ≥ 1 (theorem
`sampling_step_positive`); with step = 0 the JS loop would not terminate,
while this model visits every element. -/
def sampleLoop (cap step : Nat) : List α → Nat → List α → List α
  | [], _, acc => acc
  | x :: xs, countdown, acc =>
    match countdown with
    | 0 => sampleLoop cap step xs (step - 1)
        (if acc.length < cap then acc ++ [x] else acc)
    | Nat.succ c => sampleLoop cap step xs c acc

/-- `removeDuplicates` (lines 118-128): keep the first occurrence of each
record, in order, using a seen-set keyed by `JSON.stringify`. Records are
flat string-valued objects, for which stringify equality coincides with
structural equality, so the seen-set is modelled as a list of values. -/
def removeDuplicatesAux [DecidableEq α] : List α → List α → List α
  | _, [] => []
  | seen, item :: rest =>
    if item ∈ seen then removeDuplicatesAux seen rest
    else item :: removeDuplicatesAux (item :: seen) rest

/-- `removeDuplicates` entry point (line 118). -/
def removeDuplicates [DecidableEq α] (data : List α) : List α :=
  removeDuplicatesAux [] data

/-- `timeBasedSampling` (lines 139-158). `[...data].sort((a, b) => dateA - dateB)`
is a stable ascending sort of a copy by `getDateValue` (JS sort is stable),
modelled with the stable `List.mergeSort`. -/
def timeBasedSampling (data : List Record) (sampleSize : Nat) : List Record :=
  let sortedData := List.mergeSort data (fun a b => getDateValue a ≤ getDateValue b)
  sampleLoop sampleSize (samplingStep sortedData.length sampleSize) sortedData 0 []

/-- `data.slice(-20)` (line 33): the last 20 records (the whole dataset when
it is shorter than 20). -/
def sliceLast20 (data : List Record) : List Record :=
  data.drop (data.length - 20)

/-- The object returned by `processDataForAI` (lines 8-12 and 42-47).
`totalRecords` is an `Option` because the small-branch object literal has no
such field: reading it there yields `undefined`. -/
structure SampleResult where
  fullData : List Record
  summary : Option Summary
  sampleSize : Nat
  totalRecords : Option Nat
deriving DecidableEq

/-- `processDataForAI` (lines 3-48). The `question` parameter is never read
by the body. -/
def processDataForAI (data : List Record) (question : String) : SampleResult :=
  let dataLength := data.length
  if dataLength ≤ 100 then
    { fullData := data
      summary := generateDataSummary data
      sampleSize := dataLength
      totalRecords := none }
  else
    let sampleSize := min 2000 dataLength
    let sampledData :=
      if hasDateColumn data then timeBasedSampling data sampleSize
      else sampleLoop sampleSize (samplingStep dataLength sampleSize) data 0 []
    let withRecent := sampledData ++ sliceLast20 data
    let deduped := removeDuplicates withRecent
    { fullData := deduped
      summary := generateDataSummary data
      sampleSize := deduped.length
      totalRecords := some dataLength }

/-! ### Forecaster (`generateSimpleForecast`, lines 328-371) -/

/-- An element of the series passed to `generateSimpleForecast`: a JS number,
a string, a flat record (the callers pass dataset records or raw numbers), or
`null`. -/
inductive SeriesElem where
  | num (value : ℚ)
  | str (value : String)
  | obj (fields : List (String × String))
  | null
deriving DecidableEq

/-- Lines 335-339: the first field of the record whose value parses as a
number; 0 when no field parses. -/
def firstNumericField : List (String × String) → ℚ
  | [] => 0
  | (_, v) :: rest =>
    match jsParseFloat v with
    | some x => x
    | none => firstNumericField rest

/-- The element-to-number coercion of lines 332-341: objects contribute their
first parseable field (or 0); strings contribute `parseFloat(d) || 0` (NaN
falls back to 0); numbers pass through; anything else (here `null`, whose
`typeof` is 'object' but which fails the `d !== null` guard) contributes 0. -/
def coerceElem : SeriesElem → ℚ
  | .obj fields => firstNumericField fields
  | .str s =>
    (match jsParseFloat s with
     | some v => v
     | none => 0)
  | .num v => v
  | .null => 0

/-- Lines 332-342: coerce every element and keep `!isNaN(v) && v > 0`.
Rationals have no NaN, and the coercions above never produce one (string and
object coercions fall back to 0), so the NaN test is vacuous here; the
usable values are exactly the positive coerced values. -/
def usableValues (data : List SeriesElem) : List ℚ :=
  (data.map coerceElem).filter (fun v => 0 < v)

/-- The object returned by `generateSimpleForecast` (lines 364-370). -/
structure ForecastResult where
  forecast : List ℚ
  trend : ℚ
  confidence : String
  lastValue : ℚ
  periods : Nat
deriving DecidableEq

/-- `generateSimpleForecast` (lines 328-371). The first argument is `Option`
because the JS function accepts and rejects `null`/`undefined` (`!data` at
line 329); `periods` defaults to 3 at the JS call sites and is explicit
here. -/
def generateSimpleForecast (data : Option (List SeriesElem)) (periods : Nat) :
    Option ForecastResult :=
  match data with
  | Option.none => Option.none
  | some d =>
    if d.length < 2 then none
    else
      let values := usableValues d
      if values.length < 2 then none
      else
        let firstHalf := values.take (values.length / 2)
        let secondHalf := values.drop (values.length / 2)
        let firstAvg := firstHalf.foldl (fun a b => a + b) 0 / (firstHalf.length : ℚ)
        let secondAvg := secondHalf.foldl (fun a b => a + b) 0 / (secondHalf.length : ℚ)
        let trend := secondAvg - firstAvg
        let lastValue := values.getLastD 0
        let forecast :=
          (List.range periods).map (fun i => max 0 (lastValue + trend * ((i : ℚ) + 1)))
        let confidence := if 6 ≤ values.length then "medium" else "low"
        let confidence := if 12 ≤ values.length ∧ 0 < |trend| then "high" else confidence
        some { forecast := forecast
               trend := trend
               confidence := confidence
               lastValue := lastValue
               periods := periods }

/-! ### Spec-side reference definitions

These follow the wording of spec sections 4.4 and 8 (not the code); the
forecast claims compare `generateSimpleForecast` against them. -/

/-- Modelled from the spec: arithmetic mean of a list of values. -/
def listAvg (l : List ℚ) : ℚ := l.sum / (l.length : ℚ)

/-- Modelled from the spec (4.4 trend computation): split the usable values at
`floor(n/2)` (odd length puts the extra element in the second half) and take
the difference of the half averages. -/
def specTrend (values : List ℚ) : ℚ :=
  listAvg (values.drop (values.length / 2)) - listAvg (values.take (values.length / 2))

/-- Modelled from the spec (4.4 projection): `forecast[i-1] = max(0, lastValue
+ trend * i)` for i in 1..periods. -/
def specForecastList (lastValue trend : ℚ) (periods : Nat) : List ℚ :=
  (List.range periods).map (fun i => max 0 (lastValue + trend * ((i : ℚ) + 1)))

/-- Modelled from the spec (4.4 confidence tiering): default low, medium from
6 usable values, high only from 12 usable values with a nonzero trend. -/
def specConfidence (usableCount : Nat) (trend : ℚ) : String :=
  if 12 ≤ usableCount ∧ trend ≠ 0 then "high"
  else if 6 ≤ usableCount then "medium"
  else "low"

/-! ### Untyped dynamic-value model (claim C8)

`processDataForAI` performs no validation of its `data` argument. To settle
the error-handling claim, the same source lines are re-expressed over an
untyped JS value universe: the dataset argument is an array whose elements
are arbitrary values (numbers, strings, flat records as delivered by the CSV
layer, `null`, `undefined`), and every implicit JS runtime error the body can
raise surfaces as `Except.error`. -/

/-- An untyped JS value. Records stay flat and string-valued, as the parsing
layer produces them. -/
inductive JSVal where
  | vnum (value : ℚ)
  | vstr (value : String)
  | vobj (fields : List (String × String))
  | vnull
  | vundef
deriving DecidableEq

/-- JS truthiness (`!x`, `x || y`, `if (x)`). 0, "", null and undefined are
falsy. -/
def jsTruthy : JSVal → Bool
  | .vnum q => q != 0
  | .vstr s => s != ""
  | .vobj _ => true
  | .vnull => false
  | .vundef => false

/-- `Object.keys`: throws a TypeError on null/undefined, returns the index
strings of a string, the field names of an object, and nothing for other
primitives. -/
def jsObjectKeys : JSVal → Except String (List String)
  | .vnull => .error "TypeError: Object.keys of null"
  | .vundef => .error "TypeError: Object.keys of undefined"
  | .vnum _ => .ok []
  | .vstr s => .ok ((List.range s.length).map (fun i => toString i))
  | .vobj fields => .ok (fields.map (fun kv => kv.1))

/-- Property read `row[key]` on an untyped value: throws a TypeError on
null/undefined, yields `undefined` on a number, the indexed character of a
string, and the field value of an object. -/
def jsIndex : JSVal → String → Except String JSVal
  | .vnull, _ => .error "TypeError: cannot read properties of null"
  | .vundef, _ => .error "TypeError: cannot read properties of undefined"
  | .vnum _, _ => .ok .vundef
  | .vstr s, key =>
    .ok (match (List.range s.length).find? (fun i => toString i == key) with
         | some i => .vstr (String.mk [s.toList.getD i ' '])
         | none => .vundef)
  | .vobj fields, key =>
    .ok (match fields.find? (fun kv => kv.1 == key) with
         | some kv => .vstr kv.2
         | none => .vundef)

/-- JS string coercion of an untyped value (`pattern.test` coerces its
argument). For numbers, only the coerced string's date-pattern/parseFloat
behaviour is observable in this pipeline, so the printed form of the exact
rational stands in for JS float formatting. -/
def jsToString : JSVal → String
  | .vnum q => toString q
  | .vstr s => s
  | .vobj _ => "[object Object]"
  | .vnull => "null"
  | .vundef => "undefined"

/-- `parseFloat` applied to an untyped value: a number round-trips through
its string form unchanged; anything else is coerced to a string and
parsed. -/
def jsParseFloatDyn : JSVal → Option ℚ
  | .vnum q => some q
  | v => jsParseFloat (jsToString v)

/-- `isDateColumn` over untyped sampled values. -/
def isDateColumnDyn (values : List JSVal) : Bool :=
  values.any (fun v => dateTest (jsToString v))

/-- `isNumericColumn` over untyped sampled values:
`!isNaN(parseFloat(value)) && value !== '' && value !== null`. -/
def isNumericColumnDyn (values : List JSVal) : Bool :=
  values.any (fun v =>
    (jsParseFloatDyn v).isSome && v != JSVal.vstr "" && v != JSVal.vnull)

/-- `data.slice(0, 10).map(row => row[key])` over untyped rows; the property
read can throw (null/undefined rows). -/
def sampleValuesDyn (data : List JSVal) (key : String) :
    Except String (List JSVal) :=
  (data.take 10).mapM (fun row => jsIndex row key)

/-- The classification forEach (lines 64-79) over untyped rows. -/
def bucketFoldDyn (data : List JSVal) :
    List String → List String × List String × List String →
    Except String (List String × List String × List String)
  | [], b => .ok b
  | key :: rest, (dc, nc, cc) => do
    let sv ← sampleValuesDyn data key
    if isDateColumnDyn sv then bucketFoldDyn data rest (dc ++ [key], nc, cc)
    else if isNumericColumnDyn sv then bucketFoldDyn data rest (dc, nc ++ [key], cc)
    else bucketFoldDyn data rest (dc, nc, cc ++ [key])

/-- Numeric-column statistics (lines 84-94) over untyped rows. -/
def columnStatsDyn (data : List JSVal) (col : String) :
    Except String (Option NumStats) := do
  let raw ← data.mapM (fun row => jsIndex row col)
  match raw.filterMap (fun v => jsParseFloatDyn v) with
  | [] => return none
  | v :: vs =>
    return some { min := vs.foldl min v
                  max := vs.foldl max v
                  avg := (v :: vs).foldl (fun a b => a + b) 0 / ((v :: vs).length : ℚ)
                  count := (v :: vs).length }

/-- `generateDataSummary` (lines 50-97) over untyped rows. `data[0] || {}`
and the `if (firstRow)` guard skip classification when the first element is
falsy. -/
def generateDataSummaryDyn (data : List JSVal) :
    Except String (Option Summary) := do
  if data.length = 0 then return none
  let first := data.headD .vundef
  let keys ← if jsTruthy first then jsObjectKeys first else pure []
  let b ← if jsTruthy first then bucketFoldDyn data keys ([], [], []) else pure ([], [], [])
  let stats ← b.2.1.mapM (fun col => do
    let st ← columnStatsDyn data col
    pure (col, st))
  return some { totalRecords := data.length
                columns := keys
                dateColumns := b.1
                numericColumns := b.2.1
                categoricalColumns := b.2.2
                numericStats :=
                  stats.filterMap (fun cs => cs.2.map (fun st => (cs.1, st))) }

/-- `hasDateColumn` (lines 130-137) over untyped rows: `Object.keys` of the
first element can throw. -/
def hasDateColumnDyn (data : List JSVal) : Except String Bool := do
  if data.length = 0 then return false
  let keys ← jsObjectKeys (data.headD .vundef)
  keys.anyM (fun key => do
    let sv ← sampleValuesDyn data key
    pure (isDateColumnDyn sv))

/-- `getDateValue` (lines 160-172) over an untyped row: `for..in` iterates an
object's field names, a string's indices (each value a one-character string,
never a valid date), and nothing for other values; only string values are
passed to `new Date`. -/
def getDateValueDyn : JSVal → Int
  | .vobj fields => getDateValue fields
  | .vstr s =>
    (match s.toList.findSome? (fun c => jsDateParse (String.mk [c])) with
     | some t => t
     | none => 0)
  | _ => 0

/-- `timeBasedSampling` (lines 139-158) over untyped rows. -/
def timeBasedSamplingDyn (data : List JSVal) (sampleSize : Nat) : List JSVal :=
  let sorted := List.mergeSort data (fun a b => getDateValueDyn a ≤ getDateValueDyn b)
  sampleLoop sampleSize (samplingStep sorted.length sampleSize) sorted 0 []

/-- The result object of `processDataForAI` over untyped rows. -/
structure DynSampleResult where
  fullData : List JSVal
  summary : Option Summary
  sampleSize : Nat
  totalRecords : Option Nat
deriving DecidableEq

/-- `processDataForAI` (lines 3-48) over an untyped dataset: the body exactly
as written, with the JS runtime errors it can hit surfaced in `Except`. The
module contains no input validation and no `InvalidInputError`; the only
failures are host TypeErrors from property access on null/undefined.
`JSON.stringify`-keyed dedup coincides with structural equality on these
values (distinct constructors stringify distinctly; records stringify
field-by-field in insertion order). -/
def processDataForAIDyn (data : List JSVal) (question : String) :
    Except String DynSampleResult := do
  let dataLength := data.length
  if dataLength ≤ 100 then
    let summary ← generateDataSummaryDyn data
    return { fullData := data
             summary := summary
             sampleSize := dataLength
             totalRecords := none }
  else
    let sampleSize := min 2000 dataLength
    let hasDate ← hasDateColumnDyn data
    let sampledData :=
      if hasDate then timeBasedSamplingDyn data sampleSize
      else sampleLoop sampleSize (samplingStep dataLength sampleSize) data 0 []
    let withRecent := sampledData ++ data.drop (data.length - 20)
    let deduped := removeDuplicates withRecent
    let summary ← generateDataSummaryDyn data
    return { fullData := deduped
             summary := summary
             sampleSize := deduped.length
             totalRecords := some dataLength }

/-! ### Concrete data used by the closed witnesses and counterexamples -/

/-- A one-record dataset. -/
def smallSample : List Record := [[("a", "1")]]

/-- Two structurally identical records. -/
def twinSample : List Record := [[("a", "1")], [("a", "1")]]

/-- 101 structurally identical records (no date column, numeric parsing
fails), exercising the large-dataset branch cheaply. -/
def bigSample : List Record := List.replicate 101 [("a", "x")]

/-- One record with a date column, a numeric column and a categorical
column. -/
def schemaSample : List Record := [[("d", "2024-01-01"), ("n", "5"), ("c", "x")]]

/-- The summary `generateDataSummary` produces for `schemaSample`. -/
def schemaSummary : Summary :=
  { totalRecords := 1
    columns := ["d", "n", "c"]
    dateColumns := ["d"]
    numericColumns := ["n"]
    categoricalColumns := ["c"]
    numericStats := [("n", { min := 5, max := 5, avg := 5, count := 1 })] }

/-- The eight-point series of spec section 8. -/
def forecastSample8 : List SeriesElem :=
  [SeriesElem.num 100, SeriesElem.num 120, SeriesElem.num 110, SeriesElem.num 130,
   SeriesElem.num 140, SeriesElem.num 150, SeriesElem.num 160, SeriesElem.num 170]

/-- The flat six-point series of spec section 8. -/
def flatSample6 : List SeriesElem := List.replicate 6 (SeriesElem.num 10)

/-- An array of plain numbers: an ordered sequence, but not of mappings. -/
def numbersDataset : List JSVal := [JSVal.vnum 1, JSVal.vnum 2, JSVal.vnum 3]

/-- The summary produced for a dataset whose rows have no enumerable keys
(e.g. plain numbers): only `totalRecords` is populated. -/
def emptySchemaSummary (n : Nat) : Summary :=
  { totalRecords := n
    columns := []
    dateColumns := []
    numericColumns := []
    categoricalColumns := []
    numericStats := [] }

/-! ### Helper lemmas -/

theorem sampleLoop_length_le {α : Type} (cap step : Nat) (l : List α) :
    ∀ (cd : Nat) (acc : List α),
      (sampleLoop cap step l cd acc).length ≤ max acc.length cap := by
  induction l with
  | nil => intro cd acc; simp [sampleLoop]
  | cons x xs ih =>
    intro cd acc
    cases cd with
    | zero =>
      by_cases h : acc.length < cap
      · have hrec := ih (step - 1) (acc ++ [x])
        simp only [sampleLoop, h, if_true]
        simp at hrec
        omega
      · have hrec := ih (step - 1) acc
        simpa [sampleLoop, h] using hrec
    | succ c =>
      have hrec := ih c acc
      simpa [sampleLoop] using hrec

theorem sampleLoop_length_mono {α : Type} (cap step : Nat) (l : List α) :
    ∀ (cd : Nat) (acc : List α),
      acc.length ≤ (sampleLoop cap step l cd acc).length := by
  induction l with
  | nil => intro cd acc; simp [sampleLoop]
  | cons x xs ih =>
    intro cd acc
    cases cd with
    | zero =>
      by_cases h : acc.length < cap
      · have hrec := ih (step - 1) (acc ++ [x])
        simp only [sampleLoop, h, if_true]
        simp at hrec
        omega
      · simpa [sampleLoop, h] using ih (step - 1) acc
    | succ c =>
      simpa [sampleLoop] using ih c acc

theorem sampleLoop_mem {α : Type} (cap step : Nat) (l : List α) :
    ∀ (cd : Nat) (acc : List α) (x : α),
      x ∈ sampleLoop cap step l cd acc → x ∈ acc ∨ x ∈ l := by
  induction l with
  | nil => intro cd acc x h; simp [sampleLoop] at h; exact Or.inl h
  | cons y ys ih =>
    intro cd acc x h
    cases cd with
    | zero =>
      by_cases hl : acc.length < cap
      · simp only [sampleLoop, hl, if_true] at h
        rcases ih _ _ _ h with h1 | h1
        · rcases List.mem_append.mp h1 with h2 | h2
          · exact Or.inl h2
          · simp at h2; subst h2; simp
        · simp [h1]
      · simp only [sampleLoop, hl, if_false] at h
        rcases ih _ _ _ h with h1 | h1
        · exact Or.inl h1
        · simp [h1]
    | succ c =>
      simp only [sampleLoop] at h
      rcases ih _ _ _ h with h1 | h1
      · exact Or.inl h1
      · simp [h1]

theorem sampleLoop_length_pos {α : Type} (cap step : Nat) (x : α) (xs : List α)
    (hcap : 0 < cap) : 0 < (sampleLoop cap step (x :: xs) 0 []).length := by
  have h : ([] : List α).length < cap := by simpa using hcap
  have hmono := sampleLoop_length_mono cap step xs (step - 1) ([] ++ [x])
  simp only [sampleLoop, h, if_true]
  simp at hmono ⊢
  omega

theorem removeDuplicatesAux_length_le {α : Type} [DecidableEq α] (l : List α) :
    ∀ seen : List α, (removeDuplicatesAux seen l).length ≤ l.length := by
  induction l with
  | nil => intro seen; simp [removeDuplicatesAux]
  | cons x xs ih =>
    intro seen
    by_cases h : x ∈ seen
    · simpa [removeDuplicatesAux, h] using (ih seen).trans (by omega)
    · simpa [removeDuplicatesAux, h] using ih (x :: seen)

theorem removeDuplicatesAux_all_eq_seen {α : Type} [DecidableEq α] (r : α) (l : List α) :
    ∀ seen : List α, (∀ x ∈ l, x = r) → r ∈ seen →
      removeDuplicatesAux seen l = [] := by
  induction l with
  | nil => intro seen _ _; simp [removeDuplicatesAux]
  | cons x xs ih =>
    intro seen hall hseen
    have hx : x = r := hall x (by simp)
    subst hx
    simp only [removeDuplicatesAux, if_pos hseen]
    exact ih seen (fun y hy => hall y (by simp [hy])) hseen

theorem removeDuplicates_all_eq {α : Type} [DecidableEq α] (r : α) (l : List α)
    (hne : l ≠ []) (hall : ∀ x ∈ l, x = r) : removeDuplicates l = [r] := by
  cases l with
  | nil => exact absurd rfl hne
  | cons x xs =>
    have hx : x = r := hall x (by simp)
    have hnotin : x ∉ ([] : List α) := by simp
    simp only [removeDuplicates, removeDuplicatesAux, if_neg hnotin]
    rw [removeDuplicatesAux_all_eq_seen r xs [x]
      (fun y hy => hall y (by simp [hy])) (by simp [hx]), hx]

theorem bucketFold_eq (data : List Record) (keys : List String) :
    ∀ dc nc cc : List String,
      bucketFold data keys (dc, nc, cc) =
        (dc ++ keys.filter (fun k => isDateColumn (sampleValues data k)),
         nc ++ keys.filter (fun k => !isDateColumn (sampleValues data k) &&
           isNumericColumn (sampleValues data k)),
         cc ++ keys.filter (fun k => !isDateColumn (sampleValues data k) &&
           !isNumericColumn (sampleValues data k))) := by
  induction keys with
  | nil => intro dc nc cc; simp [bucketFold]
  | cons k rest ih =>
    intro dc nc cc
    by_cases hd : isDateColumn (sampleValues data k)
    · simp [bucketFold, hd, ih, List.filter_cons]
    · by_cases hn : isNumericColumn (sampleValues data k)
      · simp [bucketFold, hd, hn, ih, List.filter_cons]
      · simp [bucketFold, hd, hn, ih, List.filter_cons]

theorem sampleLoop_ne_nil {α : Type} (cap step : Nat) (l : List α)
    (hl : l ≠ []) (hcap : 0 < cap) : sampleLoop cap step l 0 [] ≠ [] := by
  cases l with
  | nil => exact absurd rfl hl
  | cons x xs =>
    have hpos := sampleLoop_length_pos cap step x xs hcap
    intro hcon
    rw [hcon] at hpos
    simp at hpos

theorem processDataForAI_large (data : List Record) (question : String)
    (h : ¬ data.length ≤ 100) :
    processDataForAI data question =
      { fullData := removeDuplicates
          ((if hasDateColumn data then timeBasedSampling data (min 2000 data.length)
            else sampleLoop (min 2000 data.length)
              (samplingStep data.length (min 2000 data.length)) data 0 []) ++
            sliceLast20 data)
        summary := generateDataSummary data
        sampleSize := (removeDuplicates
          ((if hasDateColumn data then timeBasedSampling data (min 2000 data.length)
            else sampleLoop (min 2000 data.length)
              (samplingStep data.length (min 2000 data.length)) data 0 []) ++
            sliceLast20 data)).length
        totalRecords := some data.length } := by
  unfold processDataForAI
  simp only [h, if_false]

theorem generateSimpleForecast_eq_spec (d : List SeriesElem) (p : Nat)
    (h1 : ¬ d.length < 2) (h2 : ¬ (usableValues d).length < 2) :
    generateSimpleForecast (some d) p =
      some { forecast := specForecastList ((usableValues d).getLastD 0)
               (specTrend (usableValues d)) p
             trend := specTrend (usableValues d)
             confidence := specConfidence (usableValues d).length
               (specTrend (usableValues d))
             lastValue := (usableValues d).getLastD 0
             periods := p } := by
  have hconf : ∀ (n : Nat) (t : ℚ),
      (if 12 ≤ n ∧ 0 < |t| then "high" else if 6 ≤ n then "medium" else "low") =
        specConfidence n t := by
    intro n t
    simp [specConfidence, abs_pos]
  have htrend : specTrend (usableValues d) =
      ((usableValues d).drop ((usableValues d).length / 2)).foldl (fun a b => a + b) 0 /
        ((((usableValues d).drop ((usableValues d).length / 2)).length : ℚ)) -
      ((usableValues d).take ((usableValues d).length / 2)).foldl (fun a b => a + b) 0 /
        ((((usableValues d).take ((usableValues d).length / 2)).length : ℚ)) := by
    simp [specTrend, listAvg, List.sum_eq_foldl]
  simp only [generateSimpleForecast, h1, h2, if_false, specForecastList]
  rw [htrend, hconf]

/-! ### Claim theorems -/

/-- C1 counterexample: for a one-record dataset (length 1 ≤ 100) the result
object of `processDataForAI` carries no `totalRecords` field at all (reading
it yields `undefined`), so it does not equal the dataset length. -/
theorem reduce_small_totalRecords_undefined :
    ¬ ((processDataForAI smallSample "total").totalRecords = some smallSample.length) := by
  decide

/-- C1 (amended): for every dataset with at most 100 records and every
question, `processDataForAI` returns the dataset itself as `fullData` (same
records, same order), `sampleSize` equal to the dataset length, the summary
of the full dataset, and no `totalRecords` field (`undefined`, not the
length). -/
theorem reduce_small_returns_dataset_unchanged (data : List Record)
    (question : String) (h : data.length ≤ 100) :
    processDataForAI data question =
      { fullData := data
        summary := generateDataSummary data
        sampleSize := data.length
        totalRecords := none } := by
  unfold processDataForAI
  simp only [h, if_true]

theorem reduce_small_returns_dataset_unchanged_witness :
    smallSample.length ≤ 100 ∧
    processDataForAI smallSample "total" =
      { fullData := smallSample
        summary := generateDataSummary smallSample
        sampleSize := smallSample.length
        totalRecords := none } :=
  ⟨by decide, reduce_small_returns_dataset_unchanged smallSample "total" (by decide)⟩

/-- C2: for every dataset with more than 100 records and every question,
`processDataForAI` returns a `sampleSize` of at most `min 2000 len + 20`
(sample cap plus the 20-record recency tail; dedup only shrinks), a
`totalRecords` equal to the dataset length, and `sampleSize` equal to the
length of the returned `fullData` list. -/
theorem reduce_large_bounds (data : List Record) (question : String)
    (h : 100 < data.length) :
    (processDataForAI data question).sampleSize ≤ min 2000 data.length + 20 ∧
    (processDataForAI data question).totalRecords = some data.length ∧
    (processDataForAI data question).sampleSize =
      (processDataForAI data question).fullData.length := by
  have hnot : ¬ data.length ≤ 100 := by omega
  rw [processDataForAI_large data question hnot]
  refine ⟨?_, rfl, rfl⟩
  set s := (if hasDateColumn data then timeBasedSampling data (min 2000 data.length)
      else sampleLoop (min 2000 data.length)
        (samplingStep data.length (min 2000 data.length)) data 0 []) with hs
  have hsampled : s.length ≤ min 2000 data.length := by
    rw [hs]
    by_cases hdc : hasDateColumn data
    · simp only [hdc, if_true, timeBasedSampling]
      simpa using sampleLoop_length_le (min 2000 data.length) _ _ 0 []
    · simp only [hdc, if_false]
      simpa using sampleLoop_length_le (min 2000 data.length) _ data 0 []
  have hslice : (sliceLast20 data).length ≤ 20 := by
    simp only [sliceLast20, List.length_drop]
    omega
  calc (removeDuplicates (s ++ sliceLast20 data)).length
      ≤ (s ++ sliceLast20 data).length := removeDuplicatesAux_length_le _ []
    _ = s.length + (sliceLast20 data).length := by simp
    _ ≤ min 2000 data.length + 20 := by omega

theorem reduce_large_bounds_witness :
    100 < bigSample.length ∧
    ((processDataForAI bigSample "total").sampleSize ≤ min 2000 bigSample.length + 20 ∧
     (processDataForAI bigSample "total").totalRecords = some bigSample.length ∧
     (processDataForAI bigSample "total").sampleSize =
       (processDataForAI bigSample "total").fullData.length) :=
  ⟨by decide, reduce_large_bounds bigSample "total" (by decide)⟩

/-- C3: for every dataset for which `generateDataSummary` produces a summary
(any nonempty dataset) and every column name, the name is listed in `columns`
exactly when it lies in exactly one of `dateColumns`, `numericColumns`,
`categoricalColumns`: the three bucket lists cover `columns` and are pairwise
exclusive. -/
theorem summary_buckets_partition_columns (data : List Record) (s : Summary)
    (c : String) (h : generateDataSummary data = some s) :
    (c ∈ s.columns ↔
      (c ∈ s.dateColumns ∨ c ∈ s.numericColumns ∨ c ∈ s.categoricalColumns)) ∧
    ¬ (c ∈ s.dateColumns ∧ c ∈ s.numericColumns) ∧
    ¬ (c ∈ s.dateColumns ∧ c ∈ s.categoricalColumns) ∧
    ¬ (c ∈ s.numericColumns ∧ c ∈ s.categoricalColumns) := by
  by_cases hlen : data.length = 0
  · simp [generateDataSummary, hlen] at h
  · simp only [generateDataSummary, hlen, if_false, bucketFold_eq,
      List.nil_append] at h
    obtain rfl := Option.some.inj h
    refine ⟨?_, ?_, ?_, ?_⟩ <;>
      by_cases h1 : isDateColumn (sampleValues data c) <;>
      by_cases h2 : isNumericColumn (sampleValues data c) <;>
      simp [List.mem_filter, h1, h2]

theorem summary_buckets_partition_columns_witness :
    generateDataSummary schemaSample = some schemaSummary ∧
    (("d" ∈ schemaSummary.columns ↔
       ("d" ∈ schemaSummary.dateColumns ∨ "d" ∈ schemaSummary.numericColumns ∨
        "d" ∈ schemaSummary.categoricalColumns)) ∧
     ¬ ("d" ∈ schemaSummary.dateColumns ∧ "d" ∈ schemaSummary.numericColumns) ∧
     ¬ ("d" ∈ schemaSummary.dateColumns ∧ "d" ∈ schemaSummary.categoricalColumns) ∧
     ¬ ("d" ∈ schemaSummary.numericColumns ∧ "d" ∈ schemaSummary.categoricalColumns)) :=
  ⟨by with_unfolding_all decide,
   summary_buckets_partition_columns schemaSample schemaSummary "d"
     (by with_unfolding_all decide)⟩

/-- C4 counterexample: a dataset of 2 identical records takes the small
branch, which performs no deduplication: `fullData` keeps both records, not
exactly one. -/
theorem reduce_identical_small_no_dedup :
    ¬ ((processDataForAI twinSample "total").fullData.length = 1) := by
  decide

/-- C4 (amended): for every dataset with more than 100 records all
structurally identical to some record `r` (and every question),
`processDataForAI` returns `fullData = [r]`: sampling only picks copies of
`r` and deduplication collapses them to the single first occurrence. For 2 to
100 identical records the small branch returns them all unchanged (see the
counterexample). -/
theorem reduce_identical_records_dedup (data : List Record) (question : String)
    (r : Record) (hlen : 100 < data.length) (hall : ∀ x ∈ data, x = r) :
    (processDataForAI data question).fullData = [r] := by
  have hnot : ¬ data.length ≤ 100 := by omega
  rw [processDataForAI_large data question hnot]
  set s := (if hasDateColumn data then timeBasedSampling data (min 2000 data.length)
      else sampleLoop (min 2000 data.length)
        (samplingStep data.length (min 2000 data.length)) data 0 []) with hs
  have hcap : 0 < min 2000 data.length := lt_min_iff.mpr ⟨by omega, by omega⟩
  have hmem : ∀ x ∈ s, x = r := by
    rw [hs]
    by_cases hdc : hasDateColumn data
    · simp only [hdc, if_true, timeBasedSampling]
      intro x hx
      rcases sampleLoop_mem _ _ _ _ _ x hx with h1 | h1
      · simp at h1
      · exact hall x ((List.mergeSort_perm data _).mem_iff.mp h1)
    · simp only [hdc, if_false]
      intro x hx
      rcases sampleLoop_mem _ _ _ _ _ x hx with h1 | h1
      · simp at h1
      · exact hall x h1
  have hne : s ≠ [] := by
    rw [hs]
    by_cases hdc : hasDateColumn data
    · simp only [hdc, if_true, timeBasedSampling]
      apply sampleLoop_ne_nil _ _ _ _ hcap
      intro hcon
      have h0 := congrArg List.length hcon
      rw [List.length_mergeSort] at h0
      simp only [List.length_nil] at h0
      omega
    · simp only [hdc, if_false]
      apply sampleLoop_ne_nil _ _ _ _ hcap
      intro hcon
      rw [hcon] at hlen
      simp at hlen
  have hcomb : ∀ x ∈ s ++ sliceLast20 data, x = r := by
    intro x hx
    rcases List.mem_append.mp hx with h1 | h1
    · exact hmem x h1
    · simp only [sliceLast20] at h1
      exact hall x (List.mem_of_mem_drop h1)
  have hcombne : s ++ sliceLast20 data ≠ [] := by
    intro hcon
    exact hne (List.append_eq_nil.mp hcon).1
  exact removeDuplicates_all_eq r _ hcombne hcomb

theorem reduce_identical_records_dedup_witness :
    100 < bigSample.length ∧ (∀ x ∈ bigSample, x = [("a", "x")]) ∧
    (processDataForAI bigSample "total").fullData = [[("a", "x")]] :=
  ⟨by decide, by decide,
   reduce_identical_records_dedup bigSample "total" [("a", "x")]
     (by decide) (by decide)⟩

/-- C5: whenever the input series has at least 2 elements and at least 2
usable values, `generateSimpleForecast` returns exactly the result described
by the spec: trend is the difference of the half averages with the halves
split at floor(n/2) (extra element in the second half), `lastValue` is the
last usable value, and the forecast list is
`max(0, lastValue + trend * i)` for i in 1..periods. -/
theorem forecast_matches_spec_formulas (d : List SeriesElem) (p : Nat)
    (hlen : 2 ≤ d.length) (hu : 2 ≤ (usableValues d).length) :
    generateSimpleForecast (some d) p =
      some { forecast := specForecastList ((usableValues d).getLastD 0)
               (specTrend (usableValues d)) p
             trend := specTrend (usableValues d)
             confidence := specConfidence (usableValues d).length
               (specTrend (usableValues d))
             lastValue := (usableValues d).getLastD 0
             periods := p } :=
  generateSimpleForecast_eq_spec d p (by omega) (by omega)

theorem forecast_matches_spec_formulas_witness :
    (2 ≤ forecastSample8.length ∧ 2 ≤ (usableValues forecastSample8).length) ∧
    generateSimpleForecast (some forecastSample8) 3 =
      some { forecast := [210, 250, 290], trend := 40, confidence := "medium",
             lastValue := 170, periods := 3 } :=
  ⟨⟨by decide, by with_unfolding_all decide⟩,
   (forecast_matches_spec_formulas forecastSample8 3 (by decide)
     (by with_unfolding_all decide)).trans (by with_unfolding_all decide)⟩

/-- C6: for every forecast the function actually returns, the confidence tier
is `high` exactly when there were at least 12 usable values and the trend is
nonzero; `medium` exactly when there were at least 6 usable values but not
(12 with nonzero trend) — in particular a perfectly flat series of any
length stays at `medium`; and `low` exactly when there were fewer than 6
usable values. -/
theorem forecast_confidence_tiering (d : List SeriesElem) (p : Nat)
    (r : ForecastResult) (h : generateSimpleForecast (some d) p = some r) :
    ((r.confidence = "high") ↔
      (12 ≤ (usableValues d).length ∧ r.trend ≠ 0)) ∧
    ((r.confidence = "medium") ↔
      (6 ≤ (usableValues d).length ∧
        ¬ (12 ≤ (usableValues d).length ∧ r.trend ≠ 0))) ∧
    ((r.confidence = "low") ↔ (usableValues d).length < 6) := by
  by_cases h1 : d.length < 2
  · simp [generateSimpleForecast, h1] at h
  · by_cases h2 : (usableValues d).length < 2
    · simp [generateSimpleForecast, h1, h2] at h
    · rw [generateSimpleForecast_eq_spec d p h1 h2] at h
      obtain rfl := Option.some.inj h
      have hs1 : ("high" : String) ≠ "medium" := by decide
      have hs2 : ("high" : String) ≠ "low" := by decide
      have hs3 : ("medium" : String) ≠ "low" := by decide
      simp only [specConfidence]
      by_cases c12 : 12 ≤ (usableValues d).length <;>
        by_cases ctr : specTrend (usableValues d) ≠ 0 <;>
        by_cases c6 : 6 ≤ (usableValues d).length <;>
        first
          | omega
          | simp [c12, ctr, c6, hs1, hs2, hs3, hs1.symm, hs2.symm, hs3.symm] <;>
            omega

theorem forecast_confidence_tiering_witness :
    generateSimpleForecast (some flatSample6) 2 =
      some { forecast := [10, 10], trend := 0, confidence := "medium",
             lastValue := 10, periods := 2 } ∧
    ((({ forecast := [10, 10], trend := 0, confidence := "medium",
         lastValue := 10, periods := 2 } : ForecastResult).confidence = "medium") ↔
      (6 ≤ (usableValues flatSample6).length ∧
        ¬ (12 ≤ (usableValues flatSample6).length ∧
          ({ forecast := [10, 10], trend := 0, confidence := "medium",
             lastValue := 10, periods := 2 } : ForecastResult).trend ≠ 0))) :=
  ⟨by with_unfolding_all decide,
   (forecast_confidence_tiering flatSample6 2
     { forecast := [10, 10], trend := 0, confidence := "medium",
       lastValue := 10, periods := 2 }
     (by with_unfolding_all decide)).2.1⟩

/-- C7: `generateSimpleForecast` returns null exactly when the series is
null/absent, has fewer than 2 elements, or has fewer than 2 usable values
after coercion and the NaN/≤0 filtering; otherwise it returns a forecast
result. -/
theorem forecast_null_iff_insufficient (data : Option (List SeriesElem))
    (p : Nat) :
    generateSimpleForecast data p = none ↔
      (data = none ∨ (data.getD []).length < 2 ∨
        (usableValues (data.getD [])).length < 2) := by
  cases data with
  | none => simp [generateSimpleForecast]
  | some d =>
    by_cases h1 : d.length < 2
    · simp [generateSimpleForecast, h1]
    · by_cases h2 : (usableValues d).length < 2
      · simp [generateSimpleForecast, h1, h2]
      · simp [generateSimpleForecast, h1, h2]

/-- C8 counterexample: a dataset of plain numbers — an ordered sequence, but
not a sequence of mappings — is processed without any error being raised:
`processDataForAI` silently returns the numbers unchanged with an
empty-schema summary, instead of failing with an `InvalidInputError` (no such
error exists anywhere in the module). -/
theorem reduce_nonmapping_dataset_returns_ok :
    processDataForAIDyn numbersDataset "total" =
      Except.ok { fullData := numbersDataset,
                  summary := some (emptySchemaSummary 3),
                  sampleSize := 3,
                  totalRecords := none } := by
  with_unfolding_all rfl

theorem generateDataSummaryDyn_vnum (l : List ℚ) (hne : l ≠ []) :
    generateDataSummaryDyn (l.map JSVal.vnum) =
      Except.ok (some (emptySchemaSummary l.length)) := by
  cases l with
  | nil => exact absurd rfl hne
  | cons x xs =>
    by_cases hx : jsTruthy (JSVal.vnum x)
    · simp [generateDataSummaryDyn, hx, jsObjectKeys, bucketFoldDyn,
        Except.pure, Except.bind, bind, pure, List.mapM.loop, emptySchemaSummary]
    · simp [generateDataSummaryDyn, hx, Except.pure, Except.bind, bind, pure,
        List.mapM.loop, emptySchemaSummary]

/-- C8 (amended): `processDataForAI` performs no input validation and raises
no `InvalidInputError`. A dataset whose elements are not mappings (here: any
nonempty array of up to 100 plain numbers) is processed silently and returned
as-is with an empty-schema summary; the only failures the body can produce at
all are host TypeErrors (e.g. property access on a null element), never a
validation error. -/
theorem reduce_nonmapping_dataset_no_error (l : List ℚ) (question : String)
    (hne : l ≠ []) (hlen : l.length ≤ 100) :
    processDataForAIDyn (l.map JSVal.vnum) question =
      Except.ok { fullData := l.map JSVal.vnum,
                  summary := some (emptySchemaSummary l.length),
                  sampleSize := l.length,
                  totalRecords := none } := by
  have hsum := generateDataSummaryDyn_vnum l hne
  have hlen2 : (l.map JSVal.vnum).length ≤ 100 := by simpa using hlen
  simp [processDataForAIDyn, hlen2, hsum, Except.pure, Except.bind, bind, pure]
  intro h3
  exact absurd hlen (by omega)

theorem reduce_nonmapping_dataset_no_error_witness :
    (([1, 2, 3] : List ℚ) ≠ [] ∧ ([1, 2, 3] : List ℚ).length ≤ 100) ∧
    processDataForAIDyn (([1, 2, 3] : List ℚ).map JSVal.vnum) "total" =
      Except.ok { fullData := ([1, 2, 3] : List ℚ).map JSVal.vnum,
                  summary := some (emptySchemaSummary 3),
                  sampleSize := 3,
                  totalRecords := none } :=
  ⟨⟨by decide, by decide⟩,
   reduce_nonmapping_dataset_no_error [1, 2, 3] "total" (by decide) (by decide)⟩

/-- C9: for every dataset with more than 100 records, the sampling stride
`floor(len / min(2000, len))` used by both the stratified loop (line 24) and
the time-ordered loop (line 148, where the sorted copy has the same length)
is at least 1, so the sampling loops always advance and `processDataForAI`
terminates. (The code contains no defensive 0-to-1 adjustment; none is ever
needed under the branch guard, as this theorem shows.) -/
theorem sampling_step_positive (data : List Record) (h : 100 < data.length) :
    1 ≤ samplingStep data.length (min 2000 data.length) ∧
    1 ≤ samplingStep
        (List.mergeSort data (fun a b => getDateValue a ≤ getDateValue b)).length
        (min 2000 data.length) := by
  have hlen : (List.mergeSort data
      (fun a b => getDateValue a ≤ getDateValue b)).length = data.length :=
    List.length_mergeSort data
  rw [hlen]
  have hstep : 1 ≤ samplingStep data.length (min 2000 data.length) := by
    unfold samplingStep
    rcases le_total data.length 2000 with h2 | h2
    · rw [min_eq_right h2, Nat.div_self (by omega)]
    · rw [min_eq_left h2]
      exact (Nat.one_le_div_iff (by omega)).mpr h2
  exact ⟨hstep, hstep⟩

theorem sampling_step_positive_witness :
    100 < bigSample.length ∧
    (1 ≤ samplingStep bigSample.length (min 2000 bigSample.length) ∧
     1 ≤ samplingStep
        (List.mergeSort bigSample (fun a b => getDateValue a ≤ getDateValue b)).length
        (min 2000 bigSample.length)) :=
  ⟨by decide, sampling_step_positive bigSample (by decide)⟩

/-- C10: the `question` argument has no influence on `processDataForAI`: the
body never reads it, so the results for any two questions coincide for every
dataset. -/
theorem reduce_question_independent (data : List Record) (q1 q2 : String) :
    processDataForAI data q1 = processDataForAI data q2 := rfl

end DataProcessor
